import Mathlib

/-!
Verification of the Codless landing-page client code.

This file gives a shallow embedding of the two subsystems the specification
makes testable claims about:

* the `FormHandling` newsletter submission path (`handleNewsletterSubmission`,
  `isValidEmail` with the regular expression `^[^\s@]+@[^\s@]+\.[^\s@]+$`), and
* the `ParticleGlobe` component (sphere sampling in `setupGlobe`, the per-frame
  `animate` loop, `onWindowResize`, `triggerDisperse` and the other handlers).

Numeric conventions: the JavaScript floating-point numbers are idealised as
real numbers, except for quantities whose every value in the program is an
exact decimal (the click-impulse strength and the resize dimensions), which
are embedded as rationals so that their arithmetic stays decidable.  External
library capabilities (the simplex-noise function, the raycaster, the world
matrix of the point cloud) are passed in as explicit per-frame inputs, since
the repository treats them as given collaborators.
-/

/-! ## Form handling (`FormHandling` in `script.js` and the inline copy)

`isValidEmail` tests the regular expression `/^[^\s@]+@[^\s@]+\.[^\s@]+$/`.
JavaScript's character class `\s` is modelled by `Char.isWhitespace`.
-/

/-- A character admissible in the classes `[^\s@]` of the e-mail regular
expression: not whitespace and not `@`. -/
def atomChar (c : Char) : Bool :=
  !c.isWhitespace && c != '@'

/-- Executable decision of the regular expression
`^[^\s@]+@[^\s@]+\.[^\s@]+$` on a list of characters.  The leading
`[^\s@]+` cannot cross an `@`, so the `@` consumed by the pattern is the
first `@` of the string; after it there must be a `.` that is neither the
first nor the last remaining character, with every character drawn from
`[^\s@]`. -/
def emailRegexTest (l : List Char) : Bool :=
  let localPart := l.takeWhile (fun c => c != '@')
  match l.dropWhile (fun c => c != '@') with
  | [] => false
  | _ :: afterAt =>
      !localPart.isEmpty && localPart.all atomChar &&
        afterAt.all atomChar && ((afterAt.drop 1).dropLast.contains '.')

/-- Embedding of `FormHandling.isValidEmail`: `emailRegex.test(email)`. -/
def isValidEmail (email : String) : Bool :=
  emailRegexTest email.data

/-- Declarative reading of the regular expression
`^[^\s@]+@[^\s@]+\.[^\s@]+$`: the string splits as
`a ++ "@" ++ b ++ "." ++ c` with `a`, `b`, `c` nonempty and every character
of `a`, `b`, `c` in the class `[^\s@]`. -/
def emailMatches (l : List Char) : Prop :=
  ∃ a b c : List Char,
    l = a ++ '@' :: (b ++ '.' :: c) ∧
    a ≠ [] ∧ b ≠ [] ∧ c ≠ [] ∧
    (∀ ch ∈ a, atomChar ch = true) ∧
    (∀ ch ∈ b, atomChar ch = true) ∧
    (∀ ch ∈ c, atomChar ch = true)

/-- Observable outcome of one newsletter submission: the toast message, its
kind, and whether `form.reset()` was invoked. -/
structure SubmitResult where
  message : String
  isSuccess : Bool
  formReset : Bool
deriving DecidableEq

/-- Embedding of `FormHandling.handleNewsletterSubmission`, with the e-mail field value as
input (`emailInput?.value`; an absent input or an empty field both make the
JavaScript test `!email` succeed, modelled by the empty string).  The DOM
error-element bookkeeping is not part of the observable result. -/
def handleNewsletterSubmission (email : String) : SubmitResult :=
  if email = "" then
    { message := "Please enter an email address.", isSuccess := false, formReset := false }
  else if !(isValidEmail email) then
    { message := "Please enter a valid email address.", isSuccess := false, formReset := false }
  else
    { message := "Thank you for subscribing!", isSuccess := true, formReset := true }

/-! ## Click-impulse decay (`ParticleGlobe.animate`, lines 1077-1078)

Every value the program ever stores in `this.clickStrength` is an exact
decimal (`0`, `15`, and products with `0.95`), so the decay is embedded over
`ℚ`. -/

/-- The per-frame decay applied to `this.clickStrength`:
`if (this.clickStrength > 0) { this.clickStrength *= 0.95; }
 if (this.clickStrength < 0.01) { this.clickStrength = 0; }`. -/
def decayStep (q : ℚ) : ℚ :=
  let q1 := if q > 0 then q * 0.95 else q
  if q1 < 0.01 then 0 else q1

/-- The click strength `n` frames after a click seeded it to `15`. -/
def decayN (n : ℕ) : ℚ :=
  decayStep^[n] 15

/-! ## Vectors (`THREE.Vector3`, and `THREE.Color` components) -/

/-- A 3-component vector of reals; also used for colors (`r`,`g`,`b`). -/
@[ext]
structure Vec3 where
  x : ℝ
  y : ℝ
  z : ℝ

instance : Add Vec3 :=
  ⟨fun a b => ⟨a.x + b.x, a.y + b.y, a.z + b.z⟩⟩

instance : Sub Vec3 :=
  ⟨fun a b => ⟨a.x - b.x, a.y - b.y, a.z - b.z⟩⟩

instance : SMul ℝ Vec3 :=
  ⟨fun c v => ⟨c * v.x, c * v.y, c * v.z⟩⟩

instance : Zero Vec3 :=
  ⟨⟨0, 0, 0⟩⟩

/-- Embedding of `THREE.Vector3.length`. -/
noncomputable def Vec3.length (v : Vec3) : ℝ :=
  Real.sqrt (v.x * v.x + v.y * v.y + v.z * v.z)

/-- Embedding of `THREE.Vector3.distanceTo`. -/
noncomputable def Vec3.distanceTo (a b : Vec3) : ℝ :=
  (a - b).length

/-- Embedding of `THREE.Vector3.normalize`: `divideScalar(this.length() || 1)`, so the
zero vector is left unchanged. -/
noncomputable def Vec3.normalize (v : Vec3) : Vec3 :=
  (1 / (if v.length = 0 then 1 else v.length)) • v

/-- Embedding of `THREE.Vector3.lerp` (and, componentwise, `THREE.Color.lerp`):
`this.x += (v.x - this.x) * alpha`. -/
def Vec3.lerp (v target : Vec3) (alpha : ℝ) : Vec3 :=
  ⟨v.x + (target.x - v.x) * alpha,
   v.y + (target.y - v.y) * alpha,
   v.z + (target.z - v.z) * alpha⟩

/-! ## Flat attribute buffers

The source keeps positions and colors in flat `Float32Array`s of length
`3 * PARTICLE_COUNT`; particle `i` occupies entries `3i`, `3i+1`, `3i+2`
(`BufferAttribute` with item size 3). -/

/-- Write the three components of particle `i` into a flat buffer
(`positions[i*3] = x` and so on, or `BufferAttribute.setXYZ`). -/
def write3 (f : ℕ → ℝ) (i : ℕ) (a b c : ℝ) : ℕ → ℝ :=
  Function.update (Function.update (Function.update f (3 * i) a) (3 * i + 1) b) (3 * i + 2) c

/-- Read the three components of particle `i` from a flat buffer
(`BufferAttribute.getX/getY/getZ`). -/
def read3 (f : ℕ → ℝ) (i : ℕ) : Vec3 :=
  ⟨f (3 * i), f (3 * i + 1), f (3 * i + 2)⟩

/-! ## ParticleGlobe constants (`ParticleGlobe.init`) -/

/-- Constant `this.NOISE_FREQUENCY = 0.3`. -/
noncomputable def NOISE_FREQUENCY : ℝ := 0.3

/-- Constant `this.NOISE_AMPLITUDE = 0.45`. -/
noncomputable def NOISE_AMPLITUDE : ℝ := 0.45

/-- Constant `this.NOISE_SPEED = 0.03`. -/
noncomputable def NOISE_SPEED : ℝ := 0.03

/-- Constant `this.GLOBE_RADIUS = 5`. -/
noncomputable def GLOBE_RADIUS : ℝ := 5

/-- Constant `this.MOUSE_INFLUENCE_RADIUS = 2`. -/
noncomputable def MOUSE_INFLUENCE_RADIUS : ℝ := 2

/-- Constant `this.MOUSE_REPEL_STRENGTH = 8`. -/
noncomputable def MOUSE_REPEL_STRENGTH : ℝ := 8

/-- Constant `CLICK_INFLUENCE_RADIUS = 3` (declared inside the `animate` loop). -/
noncomputable def CLICK_INFLUENCE_RADIUS : ℝ := 3

/-- Constant `this.PARTICLE_COUNT = 20000`. -/
def PARTICLE_COUNT : ℕ := 20000

/-- Constant `this.baseColor = new THREE.Color('#508AA8')` (components over 255). -/
noncomputable def baseColor : Vec3 := ⟨80 / 255, 138 / 255, 168 / 255⟩

/-- Constant `this.hotColor = new THREE.Color('#DE6B48')` (components over 255). -/
noncomputable def hotColor : Vec3 := ⟨222 / 255, 107 / 255, 72 / 255⟩

/-! ## Geometry initialisation (`ParticleGlobe.setupGlobe`, lines 1138-1152)

`Math.random()` is modelled as a stream `rand : ℕ → ℝ` of draws; the loop
body consumes two consecutive draws per particle (`u` then `v`). -/

/-- One iteration of the `setupGlobe` fill loop for particle `i`: sample the
sphere by inverse transform (`theta = 2πu`, `phi = arccos(2v-1)`), write the
position into the flat position buffer and `this.baseColor` into the flat
color buffer. -/
noncomputable def setupBody (rand : ℕ → ℝ) (bufs : (ℕ → ℝ) × (ℕ → ℝ)) (i : ℕ) :
    (ℕ → ℝ) × (ℕ → ℝ) :=
  let u := rand (2 * i)
  let v := rand (2 * i + 1)
  let theta := 2 * Real.pi * u
  let phi := Real.arccos (2 * v - 1)
  let x := GLOBE_RADIUS * Real.sin phi * Real.cos theta
  let y := GLOBE_RADIUS * Real.sin phi * Real.sin theta
  let z := GLOBE_RADIUS * Real.cos phi
  (write3 bufs.1 i x y z, write3 bufs.2 i baseColor.x baseColor.y baseColor.z)

/-- The `setupGlobe` buffer-fill loop: both `Float32Array`s start zeroed and
are filled particle by particle. -/
noncomputable def setupGlobeBuffers (count : ℕ) (rand : ℕ → ℝ) : (ℕ → ℝ) × (ℕ → ℝ) :=
  (List.range count).foldl (setupBody rand) (fun _ => 0, fun _ => 0)

/-! ## Component state and per-frame inputs -/

/-- The mutable fields of the `ParticleGlobe` module that the verified claims
observe.  `cameraAspect` is `this.camera.aspect`; `projAspect` stands for the
projection matrix (which `updateProjectionMatrix` recomputes from the aspect);
`rendererWidth`/`rendererHeight` are the `renderer.setSize` arguments;
`renderCount` counts `renderer.render` calls. -/
structure GlobeState where
  hasContainer : Bool
  isInView : Bool
  isTouchDevice : Bool
  isRendered : Bool
  clickPoint : Vec3
  clickStrength : ℚ
  mouse : ℝ × ℝ
  originalPositions : ℕ → ℝ
  positions : ℕ → ℝ
  colors : ℕ → ℝ
  particleCount : ℕ
  cameraAspect : ℚ
  projAspect : ℚ
  rendererWidth : ℚ
  rendererHeight : ℚ
  renderCount : ℕ

/-- Per-frame inputs supplied by the external collaborators: the clock, the
simplex-noise function, the raycaster result against the invisible
intersection sphere (`Option`: hit point, or no hit), the world matrix of
`this.particles` and its inverse (as maps on points), and the container's
measured client size. -/
structure FrameEnv where
  elapsedTime : ℝ
  noise3D : ℝ → ℝ → ℝ → ℝ
  raycastHit : Option Vec3
  world : Vec3 → Vec3
  worldInv : Vec3 → Vec3
  containerWidth : ℚ
  containerHeight : ℚ

/-! ## Resize handler (`ParticleGlobe.onWindowResize`, lines 1200-1208) -/

/-- Embedding of `this.camera.updateProjectionMatrix()`: rebuild the projection matrix
from the current aspect. -/
def updateProjectionMatrix (s : GlobeState) : GlobeState :=
  { s with projAspect := s.cameraAspect }

/-- Embedding of `ParticleGlobe.onWindowResize`: bail out when the container is missing or
has a zero measured dimension; otherwise set the camera aspect to
`width / height`, rebuild the projection matrix, and resize the renderer. -/
def onWindowResize (width height : ℚ) (s : GlobeState) : GlobeState :=
  if s.hasContainer = false then s
  else if width = 0 ∨ height = 0 then s
  else
    let s1 := { s with cameraAspect := width / height }
    let s2 := updateProjectionMatrix s1
    { s2 with rendererWidth := width, rendererHeight := height }

/-! ## The per-frame update (`ParticleGlobe.animate`, lines 1059-1117) -/

open Classical in
/-- The noise sample of the loop:
`this.noise.noise3D(ox * F, oy * F, oz * F + elapsedTime * SPEED)`. -/
noncomputable def particleNoise (env : FrameEnv) (originalPos : Vec3) : ℝ :=
  env.noise3D (originalPos.x * NOISE_FREQUENCY) (originalPos.y * NOISE_FREQUENCY)
    (originalPos.z * NOISE_FREQUENCY + env.elapsedTime * NOISE_SPEED)

/-- The shimmer displacement of the loop: the original position plus its own
normal scaled by `noiseValue * NOISE_AMPLITUDE`. -/
noncomputable def shimmeringPos (env : FrameEnv) (originalPos : Vec3) : Vec3 :=
  originalPos + (particleNoise env originalPos * NOISE_AMPLITUDE) • originalPos.normalize

open Classical in
/-- The hover-repulsion displacement (lines 1093-1098): applied only when the
projected pointer is within `MOUSE_INFLUENCE_RADIUS` of the shimmering world
position and the device is not a touch device; directed away from the
pointer, scaled linearly by proximity and `MOUSE_REPEL_STRENGTH`. -/
noncomputable def hoverDisplacement (isTouch : Bool) (mouse3D worldShimmeringPos : Vec3) : Vec3 :=
  let hoverDistance := worldShimmeringPos.distanceTo mouse3D
  if hoverDistance < MOUSE_INFLUENCE_RADIUS ∧ isTouch = false then
    let hoverDirection := (worldShimmeringPos - mouse3D).normalize
    let hoverRepelStrength :=
      ((MOUSE_INFLUENCE_RADIUS - hoverDistance) / MOUSE_INFLUENCE_RADIUS) * MOUSE_REPEL_STRENGTH
    hoverRepelStrength • hoverDirection
  else 0

open Classical in
/-- The click-impulse displacement (lines 1099-1107): applied only while the
decaying strength is positive and the particle is within
`CLICK_INFLUENCE_RADIUS` of the impulse origin. -/
noncomputable def clickDisplacement (clickStrength : ℚ) (clickPoint worldShimmeringPos : Vec3) :
    Vec3 :=
  if clickStrength > 0 then
    let clickDistance := worldShimmeringPos.distanceTo clickPoint
    if clickDistance < CLICK_INFLUENCE_RADIUS then
      let clickDirection := (worldShimmeringPos - clickPoint).normalize
      let clickPushStrength :=
        ((CLICK_INFLUENCE_RADIUS - clickDistance) / CLICK_INFLUENCE_RADIUS) * (clickStrength : ℝ)
      clickPushStrength • clickDirection
    else 0
  else 0

/-- The target position of one particle in one frame (lines 1091-1109): the
shimmering position mapped to world space, displaced by hover and click
repulsion, and mapped back through the inverted world matrix. -/
noncomputable def particleTarget (env : FrameEnv) (mouse3D : Vec3) (isTouch : Bool)
    (clickStrength : ℚ) (clickPoint : Vec3) (originalPos : Vec3) : Vec3 :=
  let worldShimmeringPos := env.world (shimmeringPos env originalPos)
  let totalDisplacement :=
    hoverDisplacement isTouch mouse3D worldShimmeringPos +
      clickDisplacement clickStrength clickPoint worldShimmeringPos
  env.worldInv (worldShimmeringPos + totalDisplacement)

/-- One iteration of the `animate` particle loop: update the color entry from
the normalised noise and ease the animated position 8% of the way toward the
target. -/
noncomputable def particleUpdate (env : FrameEnv) (mouse3D : Vec3) (s : GlobeState)
    (bufs : (ℕ → ℝ) × (ℕ → ℝ)) (i : ℕ) : (ℕ → ℝ) × (ℕ → ℝ) :=
  let originalPos := read3 s.originalPositions i
  let animatedPos := read3 bufs.1 i
  let noiseValue := particleNoise env originalPos
  let normalizedNoise := (noiseValue + 1) * 0.5
  let currentColor := Vec3.lerp baseColor hotColor normalizedNoise
  let colors1 := write3 bufs.2 i currentColor.x currentColor.y currentColor.z
  let targetPos := particleTarget env mouse3D s.isTouchDevice s.clickStrength s.clickPoint originalPos
  let newPos := Vec3.lerp animatedPos targetPos 0.08
  (write3 bufs.1 i newPos.x newPos.y newPos.z, colors1)

open Classical in
/-- One execution of `ParticleGlobe.animate` past the `requestAnimationFrame`
re-scheduling: bail out while `isInView` is false; otherwise run the deferred
first resize when the container has a width, decay the click strength, update
every particle's position and color, and render. -/
noncomputable def animateFrame (env : FrameEnv) (s : GlobeState) : GlobeState :=
  if s.isInView = false then s
  else
    let s1 :=
      if s.isRendered = false ∧ env.containerWidth > 0 then
        { onWindowResize env.containerWidth env.containerHeight s with isRendered := true }
      else s
    let mouse3D := env.raycastHit.getD ⟨0, 0, 0⟩
    let s2 := { s1 with clickStrength := decayStep s1.clickStrength }
    let bufs := (List.range s2.particleCount).foldl (particleUpdate env mouse3D s2)
      (s2.positions, s2.colors)
    { s2 with positions := bufs.1, colors := bufs.2, renderCount := s2.renderCount + 1 }

/-- Iteration of `n` successive frames, frame `k` receiving inputs `envs k`. -/
noncomputable def animateN (envs : ℕ → FrameEnv) : ℕ → GlobeState → GlobeState
  | 0, s => s
  | n + 1, s => animateFrame (envs n) (animateN envs n s)

/-! ## Input handlers (`ParticleGlobe`, lines 1179-1227) -/

/-- The normalised device coordinates both `onMouseMove` and
`triggerDisperse` compute from a client position and the container's
bounding rectangle. -/
noncomputable def mouseFromClient (x y rectLeft rectTop rectWidth rectHeight : ℝ) : ℝ × ℝ :=
  (((x - rectLeft) / rectWidth) * 2 - 1, -((y - rectTop) / rectHeight) * 2 + 1)

/-- Embedding of `ParticleGlobe.onMouseMove`. -/
noncomputable def onMouseMove (x y rectLeft rectTop rectWidth rectHeight : ℝ) (s : GlobeState) :
    GlobeState :=
  { s with mouse := mouseFromClient x y rectLeft rectTop rectWidth rectHeight }

/-- Embedding of `ParticleGlobe.triggerDisperse`: update the normalised pointer, raycast
against the invisible sphere (`hit` is the raycaster's verdict for that
pointer), and only on a hit record the intersection point and reset the
strength to `15`. -/
noncomputable def triggerDisperse (hit : Option Vec3)
    (x y rectLeft rectTop rectWidth rectHeight : ℝ) (s : GlobeState) : GlobeState :=
  let s1 := { s with mouse := mouseFromClient x y rectLeft rectTop rectWidth rectHeight }
  match hit with
  | some point => { s1 with clickPoint := point, clickStrength := 15 }
  | none => s1

/-- Embedding of `ParticleGlobe.onMouseClick`. -/
noncomputable def onMouseClick (hit : Option Vec3)
    (x y rectLeft rectTop rectWidth rectHeight : ℝ) (s : GlobeState) : GlobeState :=
  triggerDisperse hit x y rectLeft rectTop rectWidth rectHeight s

/-- Embedding of `ParticleGlobe.onTouchStart`: dispatch the first touch, if any, to
`triggerDisperse`. -/
noncomputable def onTouchStart (hit : Option Vec3) (touches : List (ℝ × ℝ))
    (rectLeft rectTop rectWidth rectHeight : ℝ) (s : GlobeState) : GlobeState :=
  match touches with
  | [] => s
  | touch :: _ => triggerDisperse hit touch.1 touch.2 rectLeft rectTop rectWidth rectHeight s

/-- The intersection-observer callback: `this.isInView = entry.isIntersecting`. -/
def setIsInView (visible : Bool) (s : GlobeState) : GlobeState :=
  { s with isInView := visible }

/-! ## Event interleavings -/

/-- Any event the initialised component can receive. -/
inductive GlobeOp where
  | frame (env : FrameEnv)
  | mouseMove (x y rectLeft rectTop rectWidth rectHeight : ℝ)
  | mouseClick (hit : Option Vec3) (x y rectLeft rectTop rectWidth rectHeight : ℝ)
  | touchStart (hit : Option Vec3) (touches : List (ℝ × ℝ))
      (rectLeft rectTop rectWidth rectHeight : ℝ)
  | resize (w hgt : ℚ)
  | intersectionChange (visible : Bool)

/-- Apply one event to the component state. -/
noncomputable def applyOp (op : GlobeOp) (s : GlobeState) : GlobeState :=
  match op with
  | .frame env => animateFrame env s
  | .mouseMove x y rl rt rw rh => onMouseMove x y rl rt rw rh s
  | .mouseClick hit x y rl rt rw rh => onMouseClick hit x y rl rt rw rh s
  | .touchStart hit touches rl rt rw rh => onTouchStart hit touches rl rt rw rh s
  | .resize w hgt => onWindowResize w hgt s
  | .intersectionChange visible => setIsInView visible s

/-- Run a sequence of events. -/
noncomputable def run (s : GlobeState) (ops : List GlobeOp) : GlobeState :=
  ops.foldl (fun t op => applyOp op t) s

/-- The state `ParticleGlobe.init` plus `setupGlobe` produce (for a present
container): visible, not yet sized, zero click strength, pointer parked at
`(-100, -100)`, `originalPositions` and the animated position attribute both
copies of the freshly sampled buffer, camera aspect `1`
(`new THREE.PerspectiveCamera(75, 1, 0.1, 1000)`). -/
noncomputable def initialState (count : ℕ) (rand : ℕ → ℝ) (isTouch : Bool) : GlobeState :=
  let bufs := setupGlobeBuffers count rand
  { hasContainer := true
    isInView := true
    isTouchDevice := isTouch
    isRendered := false
    clickPoint := ⟨0, 0, 0⟩
    clickStrength := 0
    mouse := (-100, -100)
    originalPositions := bufs.1
    positions := bufs.1
    colors := bufs.2
    particleCount := count
    cameraAspect := 1
    projAspect := 1
    rendererWidth := 0
    rendererHeight := 0
    renderCount := 0 }

/-! ## Concrete instances used by the witnesses -/

/-- A concrete component state. -/
noncomputable def sampleState : GlobeState :=
  { hasContainer := true
    isInView := true
    isTouchDevice := false
    isRendered := true
    clickPoint := ⟨0, 0, 0⟩
    clickStrength := 0
    mouse := (-100, -100)
    originalPositions := fun _ => 0
    positions := fun _ => 0
    colors := fun _ => 0
    particleCount := 0
    cameraAspect := 1
    projAspect := 1
    rendererWidth := 0
    rendererHeight := 0
    renderCount := 0 }

/-- A concrete frame environment: zero noise, no raycast hit, identity world
matrix. -/
noncomputable def sampleEnv : FrameEnv :=
  { elapsedTime := 0
    noise3D := fun _ _ _ => 0
    raycastHit := none
    world := id
    worldInv := id
    containerWidth := 1
    containerHeight := 1 }

/-! ## Componentwise vector lemmas -/

@[simp]
theorem Vec3.add_x (a b : Vec3) : (a + b).x = a.x + b.x := rfl

@[simp]
theorem Vec3.add_y (a b : Vec3) : (a + b).y = a.y + b.y := rfl

@[simp]
theorem Vec3.add_z (a b : Vec3) : (a + b).z = a.z + b.z := rfl

@[simp]
theorem Vec3.sub_x (a b : Vec3) : (a - b).x = a.x - b.x := rfl

@[simp]
theorem Vec3.sub_y (a b : Vec3) : (a - b).y = a.y - b.y := rfl

@[simp]
theorem Vec3.sub_z (a b : Vec3) : (a - b).z = a.z - b.z := rfl

@[simp]
theorem Vec3.smul_x (c : ℝ) (v : Vec3) : (c • v).x = c * v.x := rfl

@[simp]
theorem Vec3.smul_y (c : ℝ) (v : Vec3) : (c • v).y = c * v.y := rfl

@[simp]
theorem Vec3.smul_z (c : ℝ) (v : Vec3) : (c • v).z = c * v.z := rfl

@[simp]
theorem Vec3.zero_x : (0 : Vec3).x = 0 := rfl

@[simp]
theorem Vec3.zero_y : (0 : Vec3).y = 0 := rfl

@[simp]
theorem Vec3.zero_z : (0 : Vec3).z = 0 := rfl

theorem Vec3.add_zero (v : Vec3) : v + 0 = v := by
  ext <;> simp

theorem Vec3.zero_add (v : Vec3) : (0 : Vec3) + v = v := by
  ext <;> simp

theorem Vec3.smul_smul (a b : ℝ) (v : Vec3) : a • b • v = (a * b) • v := by
  ext <;> simp <;> ring

theorem Vec3.length_nonneg (v : Vec3) : 0 ≤ v.length :=
  Real.sqrt_nonneg _

theorem Vec3.length_smul (c : ℝ) (v : Vec3) : (c • v).length = |c| * v.length := by
  unfold Vec3.length
  simp only [Vec3.smul_x, Vec3.smul_y, Vec3.smul_z]
  rw [show c * v.x * (c * v.x) + c * v.y * (c * v.y) + c * v.z * (c * v.z)
        = c ^ 2 * (v.x * v.x + v.y * v.y + v.z * v.z) by ring]
  rw [Real.sqrt_mul (sq_nonneg c), Real.sqrt_sq_eq_abs]

theorem Vec3.normalize_of_ne_zero (v : Vec3) (h : v.length ≠ 0) :
    v.normalize = (1 / v.length) • v := by
  unfold Vec3.normalize
  rw [if_neg h]

theorem Vec3.length_normalize (v : Vec3) (h : v.length ≠ 0) : v.normalize.length = 1 := by
  rw [Vec3.normalize_of_ne_zero v h, Vec3.length_smul]
  rw [abs_of_nonneg (div_nonneg (by norm_num) (Vec3.length_nonneg v))]
  field_simp

/-! ## Flat-buffer lemmas -/

theorem write3_at0 (f : ℕ → ℝ) (i : ℕ) (a b c : ℝ) : write3 f i a b c (3 * i) = a := by
  unfold write3
  rw [Function.update_noteq (show 3 * i ≠ 3 * i + 2 by omega),
    Function.update_noteq (show 3 * i ≠ 3 * i + 1 by omega), Function.update_same]

theorem write3_at1 (f : ℕ → ℝ) (i : ℕ) (a b c : ℝ) : write3 f i a b c (3 * i + 1) = b := by
  unfold write3
  rw [Function.update_noteq (show 3 * i + 1 ≠ 3 * i + 2 by omega), Function.update_same]

theorem write3_at2 (f : ℕ → ℝ) (i : ℕ) (a b c : ℝ) : write3 f i a b c (3 * i + 2) = c := by
  unfold write3
  rw [Function.update_same]

theorem read3_write3_self (f : ℕ → ℝ) (i : ℕ) (a b c : ℝ) :
    read3 (write3 f i a b c) i = ⟨a, b, c⟩ := by
  unfold read3
  rw [write3_at0, write3_at1, write3_at2]

theorem write3_other (f : ℕ → ℝ) (i : ℕ) (a b c : ℝ) (m : ℕ)
    (h1 : m ≠ 3 * i) (h2 : m ≠ 3 * i + 1) (h3 : m ≠ 3 * i + 2) :
    write3 f i a b c m = f m := by
  unfold write3
  rw [Function.update_noteq h3, Function.update_noteq h2, Function.update_noteq h1]

theorem read3_write3_other (f : ℕ → ℝ) (i j : ℕ) (a b c : ℝ) (h : i ≠ j) :
    read3 (write3 f j a b c) i = read3 f i := by
  unfold read3
  rw [write3_other _ _ _ _ _ _ (by omega) (by omega) (by omega),
    write3_other _ _ _ _ _ _ (by omega) (by omega) (by omega),
    write3_other _ _ _ _ _ _ (by omega) (by omega) (by omega)]

/-! ## Decay lemmas -/

theorem decayStep_nonneg (q : ℚ) : 0 ≤ decayStep q := by
  simp only [decayStep]
  split_ifs with h1 h2 h3 <;> linarith

theorem decayStep_le_self (q : ℚ) (hq : 0 ≤ q) : decayStep q ≤ q := by
  simp only [decayStep]
  split_ifs with h1 h2 h3 <;> nlinarith

theorem decayStep_zero : decayStep 0 = 0 := by
  simp only [decayStep]
  norm_num

theorem decayN_succ (n : ℕ) : decayN (n + 1) = decayStep (decayN n) := by
  unfold decayN
  rw [Function.iterate_succ_apply']

theorem decayN_nonneg (n : ℕ) : 0 ≤ decayN n := by
  cases n with
  | zero => norm_num [decayN]
  | succ m => rw [decayN_succ]; exact decayStep_nonneg _

theorem decay_lower_bound : (0.01 : ℚ) ≤ 15 * 0.95 ^ 142 := by norm_num

theorem decay_upper_bound : (15 : ℚ) * 0.95 ^ 143 < 0.01 := by norm_num

theorem decay_formula : ∀ n : ℕ, n ≤ 142 → decayN n = 15 * 0.95 ^ n := by
  intro n
  induction n with
  | zero => intro _; simp [decayN]
  | succ m ih =>
    intro h
    have hm : m ≤ 142 := Nat.le_of_succ_le h
    have hpos : (0 : ℚ) < 15 * 0.95 ^ m := by positivity
    have hq1 : ¬ ((15 : ℚ) * 0.95 ^ m * 0.95 < 0.01) := by
      push_neg
      calc (0.01 : ℚ) ≤ 15 * 0.95 ^ 142 := decay_lower_bound
        _ ≤ 15 * 0.95 ^ (m + 1) := by
            have h2 := pow_le_pow_of_le_one (by norm_num : (0 : ℚ) ≤ 0.95)
              (by norm_num : (0.95 : ℚ) ≤ 1) h
            nlinarith
        _ = 15 * 0.95 ^ m * 0.95 := by ring
    rw [decayN_succ, ih hm]
    unfold decayStep
    simp only [hpos, if_pos]
    rw [if_neg hq1]
    ring

theorem decayN_143 : decayN 143 = 0 := by
  have h142 : decayN 142 = 15 * 0.95 ^ 142 := decay_formula 142 (le_refl _)
  rw [decayN_succ, h142]
  unfold decayStep
  have hpos : (0 : ℚ) < 15 * 0.95 ^ 142 := by positivity
  simp only [hpos, if_pos]
  rw [if_pos]
  calc (15 : ℚ) * 0.95 ^ 142 * 0.95 = 15 * 0.95 ^ 143 := by ring
    _ < 0.01 := decay_upper_bound

/-! ## Field-preservation lemmas for the handlers and the frame -/

theorem onWindowResize_preserves (w hgt : ℚ) (s : GlobeState) :
    (onWindowResize w hgt s).originalPositions = s.originalPositions ∧
    (onWindowResize w hgt s).particleCount = s.particleCount ∧
    (onWindowResize w hgt s).clickStrength = s.clickStrength ∧
    (onWindowResize w hgt s).isInView = s.isInView := by
  unfold onWindowResize updateProjectionMatrix
  split_ifs <;> exact ⟨rfl, rfl, rfl, rfl⟩

theorem animateFrame_not_inView (env : FrameEnv) (s : GlobeState) (h : s.isInView = false) :
    animateFrame env s = s := by
  unfold animateFrame
  rw [if_pos h]

theorem animateFrame_preserves (env : FrameEnv) (s : GlobeState) :
    (animateFrame env s).originalPositions = s.originalPositions ∧
    (animateFrame env s).particleCount = s.particleCount := by
  unfold animateFrame
  split_ifs with h h2
  · exact ⟨rfl, rfl⟩
  · exact ⟨(onWindowResize_preserves _ _ s).1, (onWindowResize_preserves _ _ s).2.1⟩
  · exact ⟨rfl, rfl⟩

theorem animateFrame_clickStrength (env : FrameEnv) (s : GlobeState) :
    (animateFrame env s).clickStrength =
      if s.isInView = false then s.clickStrength else decayStep s.clickStrength := by
  unfold animateFrame
  split_ifs with h h2
  · rfl
  · exact congrArg decayStep (onWindowResize_preserves _ _ s).2.2.1
  · rfl

/-! ## Claim theorems -/

/-- Claim C1: for every particle and any number of executions of the
per-frame update, the original (base) position buffer written at
initialization is never mutated, and the particle count is fixed: `animate`
only rewrites the animated position attribute and the color attribute. -/
theorem c1_originalPositions_invariant (envs : ℕ → FrameEnv) (n : ℕ) (s : GlobeState) :
    (animateN envs n s).originalPositions = s.originalPositions ∧
    (animateN envs n s).particleCount = s.particleCount := by
  induction n with
  | zero => exact ⟨rfl, rfl⟩
  | succ m ih =>
    have h := animateFrame_preserves (envs m) (animateN envs m s)
    exact ⟨h.1.trans ih.1, h.2.trans ih.2⟩

/-- Claim C2: each visible frame applies exactly the decay `decayStep` to the
impulse strength; starting from the click-seeded value `15` the strength is
monotonically non-increasing, and it is exactly zero from frame
`143 = ⌈ln(0.01/15)/ln(0.95)⌉` onward (within the ≈144 frames the
specification quotes). -/
theorem c2_clickStrength_decay :
    (∀ (env : FrameEnv) (s : GlobeState),
      (animateFrame env { s with isInView := true }).clickStrength =
        decayStep s.clickStrength) ∧
    (∀ n : ℕ, decayN (n + 1) ≤ decayN n) ∧
    (∀ n : ℕ, decayN (143 + n) = 0) := by
  refine ⟨fun env s => ?_, fun n => ?_, fun n => ?_⟩
  · rw [animateFrame_clickStrength]
    norm_num
  · rw [decayN_succ]
    exact decayStep_le_self _ (decayN_nonneg n)
  · induction n with
    | zero => exact decayN_143
    | succ m ih =>
      rw [show 143 + (m + 1) = (143 + m) + 1 by omega, decayN_succ, ih, decayStep_zero]

/-- Claim C4: while the visibility flag is false the per-frame update leaves
the component state entirely unchanged over any number of frames — no
position or color buffer writes, no impulse decay, and no render calls —
until the flag is set to true again by the intersection observer. -/
theorem c4_hidden_frame_noop (envs : ℕ → FrameEnv) (n : ℕ) (s : GlobeState) :
    animateN envs n { s with isInView := false } = { s with isInView := false } := by
  induction n with
  | zero => rfl
  | succ m ih =>
    show animateFrame (envs m) (animateN envs m { s with isInView := false })
        = { s with isInView := false }
    rw [ih]
    exact animateFrame_not_inView _ _ rfl

/-- Claim C5: a resize reported while the container measures zero width or
zero height leaves the camera aspect, the projection matrix and the renderer
size untouched (so no division by zero is performed); with both dimensions
non-zero they are updated to `width / height` and `(width, height)`. -/
theorem c5_resize_zero_guard (w hgt : ℚ) (s : GlobeState) :
    ((w = 0 ∨ hgt = 0) → onWindowResize w hgt s = s) ∧
    (w ≠ 0 → hgt ≠ 0 → s.hasContainer = true →
      (onWindowResize w hgt s).cameraAspect = w / hgt ∧
      (onWindowResize w hgt s).projAspect = w / hgt ∧
      (onWindowResize w hgt s).rendererWidth = w ∧
      (onWindowResize w hgt s).rendererHeight = hgt) := by
  constructor
  · intro h0
    unfold onWindowResize
    by_cases hc : s.hasContainer = false
    · rw [if_pos hc]
    · rw [if_neg hc, if_pos h0]
  · intro hw hh hc
    unfold onWindowResize updateProjectionMatrix
    rw [if_neg (by rw [hc]; simp),
      if_neg (by rintro (h | h) <;> [exact hw h; exact hh h])]
    exact ⟨rfl, rfl, rfl, rfl⟩

/-- Witness for C5 at concrete sizes `0 × 7` (guarded) and `3 × 2`
(updating). -/
theorem c5_resize_zero_guard_witness :
    onWindowResize 0 7 sampleState = sampleState ∧
    ((onWindowResize 3 2 sampleState).cameraAspect = 3 / 2 ∧
      (onWindowResize 3 2 sampleState).projAspect = 3 / 2 ∧
      (onWindowResize 3 2 sampleState).rendererWidth = 3 ∧
      (onWindowResize 3 2 sampleState).rendererHeight = 2) :=
  ⟨(c5_resize_zero_guard 0 7 sampleState).1 (Or.inl rfl),
    (c5_resize_zero_guard 3 2 sampleState).2 (by norm_num) (by norm_num) rfl⟩

/-- Claim C8: `triggerDisperse` (reached from both `onMouseClick` and
`onTouchStart`) raycasts the updated pointer against the invisible sphere;
exactly on a hit it stores the intersection point as the impulse origin and
resets the strength to `15`, and on a miss it leaves both untouched. -/
theorem c8_triggerDisperse (hit : Option Vec3) (x y rl rt rw rh : ℝ) (s : GlobeState) :
    (∀ p : Vec3, hit = some p →
      (triggerDisperse hit x y rl rt rw rh s).clickPoint = p ∧
      (triggerDisperse hit x y rl rt rw rh s).clickStrength = 15) ∧
    (hit = none →
      (triggerDisperse hit x y rl rt rw rh s).clickPoint = s.clickPoint ∧
      (triggerDisperse hit x y rl rt rw rh s).clickStrength = s.clickStrength) ∧
    onMouseClick hit x y rl rt rw rh s = triggerDisperse hit x y rl rt rw rh s ∧
    (∀ (touch : ℝ × ℝ) (rest : List (ℝ × ℝ)),
      onTouchStart hit (touch :: rest) rl rt rw rh s =
        triggerDisperse hit touch.1 touch.2 rl rt rw rh s) := by
  refine ⟨?_, ?_, rfl, fun touch rest => rfl⟩
  · rintro p rfl
    exact ⟨rfl, rfl⟩
  · rintro rfl
    exact ⟨rfl, rfl⟩

/-- Witness for C8: a hit at `(1, 2, 3)` seeds the impulse; a miss changes
neither the impulse origin nor the strength. -/
theorem c8_triggerDisperse_witness :
    ((triggerDisperse (some ⟨1, 2, 3⟩) 0 0 0 0 1 1 sampleState).clickPoint = ⟨1, 2, 3⟩ ∧
      (triggerDisperse (some ⟨1, 2, 3⟩) 0 0 0 0 1 1 sampleState).clickStrength = 15) ∧
    ((triggerDisperse none 0 0 0 0 1 1 sampleState).clickPoint = sampleState.clickPoint ∧
      (triggerDisperse none 0 0 0 0 1 1 sampleState).clickStrength =
        sampleState.clickStrength) :=
  ⟨(c8_triggerDisperse (some ⟨1, 2, 3⟩) 0 0 0 0 1 1 sampleState).1 _ rfl,
    (c8_triggerDisperse none 0 0 0 0 1 1 sampleState).2.1 rfl⟩

/-- Claim C9: the impulse strength is never negative: it starts at `0`, every
raycast hit resets it to `15`, the per-frame decay keeps it non-negative, and
no other event touches it — so after any event sequence it is still
non-negative. -/
theorem c9_clickStrength_nonneg (count : ℕ) (rand : ℕ → ℝ) (isTouch : Bool)
    (ops : List GlobeOp) :
    (initialState count rand isTouch).clickStrength = 0 ∧
    0 ≤ (run (initialState count rand isTouch) ops).clickStrength := by
  refine ⟨rfl, ?_⟩
  have step : ∀ (op : GlobeOp) (s : GlobeState),
      0 ≤ s.clickStrength → 0 ≤ (applyOp op s).clickStrength := by
    intro op s h
    cases op with
    | frame env =>
      show 0 ≤ (animateFrame env s).clickStrength
      rw [animateFrame_clickStrength]
      split_ifs
      · exact h
      · exact decayStep_nonneg _
    | mouseMove x y rl rt rw rh => exact h
    | mouseClick hit x y rl rt rw rh =>
      cases hit with
      | some p => norm_num [applyOp, onMouseClick, triggerDisperse]
      | none => exact h
    | touchStart hit touches rl rt rw rh =>
      cases touches with
      | nil => exact h
      | cons touch rest =>
        cases hit with
        | some p => norm_num [applyOp, onTouchStart, triggerDisperse]
        | none => exact h
    | resize w hgt =>
      show 0 ≤ (onWindowResize w hgt s).clickStrength
      rw [(onWindowResize_preserves w hgt s).2.2.1]
      exact h
    | intersectionChange visible => exact h
  have main : ∀ (l : List GlobeOp) (s : GlobeState),
      0 ≤ s.clickStrength → 0 ≤ (run s l).clickStrength := by
    intro l
    induction l with
    | nil => exact fun s h => h
    | cons op rest ih => exact fun s h => ih (applyOp op s) (step op s h)
  exact main ops _ (le_of_eq rfl)

/-! ## Setup-loop lemmas for C6 -/

theorem setup_foldl_untouched (rand : ℕ → ℝ) :
    ∀ (l : List ℕ) (bufs : (ℕ → ℝ) × (ℕ → ℝ)) (i : ℕ), (∀ j ∈ l, j ≠ i) →
      read3 (l.foldl (setupBody rand) bufs).1 i = read3 bufs.1 i ∧
      read3 (l.foldl (setupBody rand) bufs).2 i = read3 bufs.2 i := by
  intro l
  induction l with
  | nil => exact fun bufs i _ => ⟨rfl, rfl⟩
  | cons j t ih =>
    intro bufs i h
    have hj : j ≠ i := h j (List.mem_cons_self j t)
    have ht : ∀ k ∈ t, k ≠ i := fun k hk => h k (List.mem_cons_of_mem j hk)
    have hrec := ih (setupBody rand bufs j) i ht
    rw [List.foldl_cons]
    exact ⟨hrec.1.trans (read3_write3_other _ _ _ _ _ _ hj.symm),
      hrec.2.trans (read3_write3_other _ _ _ _ _ _ hj.symm)⟩

theorem setup_foldl_mem (rand : ℕ → ℝ) :
    ∀ (l : List ℕ) (bufs : (ℕ → ℝ) × (ℕ → ℝ)) (i : ℕ), i ∈ l → l.Nodup →
      read3 (l.foldl (setupBody rand) bufs).1 i =
        ⟨GLOBE_RADIUS * Real.sin (Real.arccos (2 * rand (2 * i + 1) - 1)) *
            Real.cos (2 * Real.pi * rand (2 * i)),
          GLOBE_RADIUS * Real.sin (Real.arccos (2 * rand (2 * i + 1) - 1)) *
            Real.sin (2 * Real.pi * rand (2 * i)),
          GLOBE_RADIUS * Real.cos (Real.arccos (2 * rand (2 * i + 1) - 1))⟩ ∧
      read3 (l.foldl (setupBody rand) bufs).2 i = baseColor := by
  intro l
  induction l with
  | nil => exact fun bufs i hi _ => absurd hi (List.not_mem_nil i)
  | cons j t ih =>
    intro bufs i hi hnd
    rw [List.foldl_cons]
    rcases List.mem_cons.mp hi with rfl | hmem
    · have hnotin : i ∉ t := (List.nodup_cons.mp hnd).1
      have ht : ∀ k ∈ t, k ≠ i := fun k hk he => hnotin (he ▸ hk)
      have hu := setup_foldl_untouched rand t (setupBody rand bufs i) i ht
      exact ⟨hu.1.trans (read3_write3_self _ _ _ _ _),
        hu.2.trans (read3_write3_self _ _ _ _ _)⟩
    · exact ih (setupBody rand bufs j) i hmem (List.nodup_cons.mp hnd).2

/-- Claim C6: for particle `i < count` with uniform draws `u = rand (2i)` and
`v = rand (2i+1)`, the geometry initializer stores exactly
`(R sin φ cos θ, R sin φ sin θ, R cos φ)` with `θ = 2πu`, `φ = arccos(2v-1)`
on the sphere of radius `GLOBE_RADIUS`, sets the initial color to
`baseColor`, and is deterministic in the random stream (in particular for
`count = 4`). -/
theorem c6_setupGlobe_sampling (count : ℕ) (rand : ℕ → ℝ) (i : ℕ) (hi : i < count) :
    read3 (setupGlobeBuffers count rand).1 i =
      ⟨GLOBE_RADIUS * Real.sin (Real.arccos (2 * rand (2 * i + 1) - 1)) *
          Real.cos (2 * Real.pi * rand (2 * i)),
        GLOBE_RADIUS * Real.sin (Real.arccos (2 * rand (2 * i + 1) - 1)) *
          Real.sin (2 * Real.pi * rand (2 * i)),
        GLOBE_RADIUS * Real.cos (Real.arccos (2 * rand (2 * i + 1) - 1))⟩ ∧
    read3 (setupGlobeBuffers count rand).2 i = baseColor ∧
    ∀ rand2 : ℕ → ℝ, (∀ k, rand k = rand2 k) →
      setupGlobeBuffers count rand = setupGlobeBuffers count rand2 := by
  have h := setup_foldl_mem rand (List.range count) (fun _ => 0, fun _ => 0) i
    (List.mem_range.mpr hi) (List.nodup_range count)
  exact ⟨h.1, h.2, fun rand2 hr => by rw [funext hr]⟩

/-- Witness for C6: the spec's `N = 4` scenario with the constant-zero draw
stream, checked at particle `0`. -/
theorem c6_setupGlobe_sampling_witness :
    (0 : ℕ) < 4 ∧
    read3 (setupGlobeBuffers 4 (fun _ => (0 : ℝ))).1 0 =
      ⟨GLOBE_RADIUS * Real.sin (Real.arccos (2 * 0 - 1)) * Real.cos (2 * Real.pi * 0),
        GLOBE_RADIUS * Real.sin (Real.arccos (2 * 0 - 1)) * Real.sin (2 * Real.pi * 0),
        GLOBE_RADIUS * Real.cos (Real.arccos (2 * 0 - 1))⟩ ∧
    read3 (setupGlobeBuffers 4 (fun _ => (0 : ℝ))).2 0 = baseColor :=
  ⟨by norm_num, (c6_setupGlobe_sampling 4 (fun _ => 0) 0 (by norm_num)).1,
    (c6_setupGlobe_sampling 4 (fun _ => 0) 0 (by norm_num)).2.1⟩

/-- Claim C7: a hover repulsion is added exactly when the device is not a
touch device and the shimmering position is strictly within
`MOUSE_INFLUENCE_RADIUS` of the projected pointer; it then points away from
the pointer and has magnitude
`((radius - distance) / radius) * MOUSE_REPEL_STRENGTH`. -/
theorem c7_hover_repulsion (isTouch : Bool) (mouse3D w : Vec3) :
    ((isTouch = true ∨ MOUSE_INFLUENCE_RADIUS ≤ w.distanceTo mouse3D) →
      hoverDisplacement isTouch mouse3D w = 0) ∧
    (isTouch = false → w.distanceTo mouse3D < MOUSE_INFLUENCE_RADIUS →
      hoverDisplacement isTouch mouse3D w =
        (((MOUSE_INFLUENCE_RADIUS - w.distanceTo mouse3D) / MOUSE_INFLUENCE_RADIUS) *
            MOUSE_REPEL_STRENGTH) • (w - mouse3D).normalize) ∧
    (isTouch = false → w.distanceTo mouse3D < MOUSE_INFLUENCE_RADIUS →
      0 < w.distanceTo mouse3D →
      (hoverDisplacement isTouch mouse3D w).length =
        ((MOUSE_INFLUENCE_RADIUS - w.distanceTo mouse3D) / MOUSE_INFLUENCE_RADIUS) *
          MOUSE_REPEL_STRENGTH ∧
      ∃ c : ℝ, 0 < c ∧ hoverDisplacement isTouch mouse3D w = c • (w - mouse3D)) := by
  refine ⟨?_, ?_, ?_⟩
  · intro h
    simp only [hoverDisplacement]
    rw [if_neg]
    rintro ⟨hlt, htouch⟩
    rcases h with h | h
    · rw [h] at htouch
      exact absurd htouch (by decide)
    · exact absurd hlt (not_lt.mpr h)
  · intro h1 h2
    simp only [hoverDisplacement]
    rw [if_pos ⟨h2, h1⟩]
  · intro h1 h2 h3
    have hlen : (w - mouse3D).length ≠ 0 := ne_of_gt h3
    have hbr : hoverDisplacement isTouch mouse3D w =
        (((MOUSE_INFLUENCE_RADIUS - w.distanceTo mouse3D) / MOUSE_INFLUENCE_RADIUS) *
          MOUSE_REPEL_STRENGTH) • (w - mouse3D).normalize := by
      simp only [hoverDisplacement]
      rw [if_pos ⟨h2, h1⟩]
    have hd2 : w.distanceTo mouse3D < 2 := by
      simpa [MOUSE_INFLUENCE_RADIUS] using h2
    have hscalar : 0 < ((MOUSE_INFLUENCE_RADIUS - w.distanceTo mouse3D) /
        MOUSE_INFLUENCE_RADIUS) * MOUSE_REPEL_STRENGTH := by
      simp only [MOUSE_INFLUENCE_RADIUS, MOUSE_REPEL_STRENGTH]
      exact mul_pos (div_pos (by linarith) (by norm_num)) (by norm_num)
    refine ⟨?_, ?_⟩
    · rw [hbr, Vec3.length_smul, Vec3.length_normalize _ hlen, mul_one, abs_of_pos hscalar]
    · refine ⟨(((MOUSE_INFLUENCE_RADIUS - w.distanceTo mouse3D) / MOUSE_INFLUENCE_RADIUS) *
          MOUSE_REPEL_STRENGTH) * (1 / (w - mouse3D).length), ?_, ?_⟩
      · exact mul_pos hscalar (one_div_pos.mpr h3)
      · rw [hbr, Vec3.normalize_of_ne_zero _ hlen, Vec3.smul_smul]

/-- Witness for C7: a desktop pointer at the origin and a shimmering position
at distance `1`, inside the influence radius. -/
theorem c7_hover_repulsion_witness :
    Vec3.distanceTo ⟨1, 0, 0⟩ ⟨0, 0, 0⟩ < MOUSE_INFLUENCE_RADIUS ∧
    0 < Vec3.distanceTo ⟨1, 0, 0⟩ ⟨0, 0, 0⟩ ∧
    (hoverDisplacement false ⟨0, 0, 0⟩ ⟨1, 0, 0⟩).length =
      ((MOUSE_INFLUENCE_RADIUS - Vec3.distanceTo ⟨1, 0, 0⟩ ⟨0, 0, 0⟩) /
          MOUSE_INFLUENCE_RADIUS) * MOUSE_REPEL_STRENGTH ∧
    ∃ c : ℝ, 0 < c ∧
      hoverDisplacement false ⟨0, 0, 0⟩ ⟨1, 0, 0⟩ = c • ((⟨1, 0, 0⟩ : Vec3) - ⟨0, 0, 0⟩) := by
  have hd : Vec3.distanceTo ⟨1, 0, 0⟩ ⟨0, 0, 0⟩ = 1 := by
    simp only [Vec3.distanceTo, Vec3.length, Vec3.sub_x, Vec3.sub_y, Vec3.sub_z]
    norm_num
  have h2 : Vec3.distanceTo ⟨1, 0, 0⟩ ⟨0, 0, 0⟩ < MOUSE_INFLUENCE_RADIUS := by
    rw [hd]
    simp only [MOUSE_INFLUENCE_RADIUS]
    norm_num
  have h3 : 0 < Vec3.distanceTo ⟨1, 0, 0⟩ ⟨0, 0, 0⟩ := by
    rw [hd]
    norm_num
  have h := (c7_hover_repulsion false ⟨0, 0, 0⟩ ⟨1, 0, 0⟩).2.2 rfl h2 h3
  exact ⟨h2, h3, h.1, h.2⟩

/-- Claim C3: in a frame with no pointer influence (touch device, or pointer
at or beyond the influence radius) and zero impulse strength, the target
position computed by the per-frame update is exactly the shimmer-displaced
position: the original position plus its own normal scaled by
`noiseValue * NOISE_AMPLITUDE`, with no repulsion term. -/
theorem c3_target_eq_shimmer (env : FrameEnv) (mouse3D : Vec3) (isTouch : Bool)
    (cs : ℚ) (clickPoint originalPos : Vec3)
    (hcs : cs = 0)
    (hfar : isTouch = true ∨
      MOUSE_INFLUENCE_RADIUS ≤ (env.world (shimmeringPos env originalPos)).distanceTo mouse3D)
    (hinv : env.worldInv (env.world (shimmeringPos env originalPos)) =
      shimmeringPos env originalPos) :
    particleTarget env mouse3D isTouch cs clickPoint originalPos =
      originalPos + (particleNoise env originalPos * NOISE_AMPLITUDE) •
        originalPos.normalize := by
  have hhover :
      hoverDisplacement isTouch mouse3D (env.world (shimmeringPos env originalPos)) = 0 := by
    simp only [hoverDisplacement]
    rw [if_neg]
    rintro ⟨hlt, htouch⟩
    rcases hfar with h | h
    · rw [h] at htouch
      exact absurd htouch (by decide)
    · exact absurd hlt (not_lt.mpr h)
  have hclick :
      clickDisplacement cs clickPoint (env.world (shimmeringPos env originalPos)) = 0 := by
    subst hcs
    simp only [clickDisplacement]
    rw [if_neg (lt_irrefl 0)]
  simp only [particleTarget]
  rw [hhover, hclick, Vec3.add_zero, Vec3.add_zero, hinv]
  rfl

/-- Witness for C3: a touch device with zero impulse strength, the identity
world matrix, and the particle at `(5, 0, 0)`. -/
theorem c3_target_eq_shimmer_witness :
    (0 : ℚ) = 0 ∧
    particleTarget sampleEnv ⟨0, 0, 0⟩ true 0 ⟨0, 0, 0⟩ ⟨5, 0, 0⟩ =
      ⟨5, 0, 0⟩ + (particleNoise sampleEnv ⟨5, 0, 0⟩ * NOISE_AMPLITUDE) •
        Vec3.normalize ⟨5, 0, 0⟩ :=
  ⟨rfl, c3_target_eq_shimmer sampleEnv ⟨0, 0, 0⟩ true 0 ⟨0, 0, 0⟩ ⟨5, 0, 0⟩ rfl
    (Or.inl rfl) rfl⟩

/-! ## E-mail regular-expression lemmas for C10 -/

theorem takeWhile_append_all {p : Char → Bool} :
    ∀ (a : List Char) (y : Char) (ys : List Char), (∀ x ∈ a, p x = true) → p y = false →
      (a ++ y :: ys).takeWhile p = a ∧ (a ++ y :: ys).dropWhile p = y :: ys := by
  intro a
  induction a with
  | nil =>
    intro y ys _ hy
    simp [List.takeWhile_cons, List.dropWhile_cons, hy]
  | cons x a' ih =>
    intro y ys h hy
    have hx : p x = true := h x (List.mem_cons_self _ _)
    have h' : ∀ t ∈ a', p t = true := fun t ht => h t (List.mem_cons_of_mem _ ht)
    have hrec := ih y ys h' hy
    simp [List.takeWhile_cons, List.dropWhile_cons, hx, hrec.1, hrec.2]

theorem dropWhile_head_false {p : Char → Bool} :
    ∀ (l : List Char) (y : Char) (ys : List Char), l.dropWhile p = y :: ys → p y = false := by
  intro l
  induction l with
  | nil => intro y ys h; simp [List.dropWhile] at h
  | cons x t ih =>
    intro y ys h
    rw [List.dropWhile_cons] at h
    by_cases hx : p x = true
    · rw [if_pos hx] at h
      exact ih y ys h
    · rw [if_neg hx] at h
      injection h with h1 h2
      have hpx : p x = false := by simpa using hx
      rw [← h1]
      exact hpx

theorem atomChar_bne (c : Char) (h : atomChar c = true) : (c != '@') = true := by
  simp only [atomChar, Bool.and_eq_true] at h
  exact h.2

/-- The executable matcher decides exactly the declarative semantics of the
regular expression `^[^\s@]+@[^\s@]+\.[^\s@]+$`. -/
theorem emailRegexTest_iff (l : List Char) : emailRegexTest l = true ↔ emailMatches l := by
  constructor
  · intro h
    unfold emailRegexTest at h
    cases hd : l.dropWhile (fun c => c != '@') with
    | nil =>
      rw [hd] at h
      simp at h
    | cons y afterAt =>
      rw [hd] at h
      simp only [Bool.and_eq_true, Bool.not_eq_true'] at h
      obtain ⟨⟨⟨hne, hall⟩, hafter⟩, hdot⟩ := h
      set a := l.takeWhile (fun c => c != '@') with ha
      have hl : l = a ++ y :: afterAt := by
        conv_lhs => rw [← List.takeWhile_append_dropWhile (fun c => c != '@') l]
        rw [hd]
      have hy : (y != '@') = false := dropWhile_head_false l y afterAt hd
      have hy' : y = '@' := by simpa using hy
      cases afterAt with
      | nil => simp at hdot
      | cons h1 tail1 =>
        rcases List.eq_nil_or_concat' tail1 with rfl | ⟨mid, z, rfl⟩
        · simp at hdot
        · have hdotm : '.' ∈ mid := by
            have hmid : ((h1 :: (mid ++ [z])).drop 1).dropLast = mid := by simp
            simpa [hmid] using hdot
          obtain ⟨s, t, rfl⟩ := List.append_of_mem hdotm
          refine ⟨a, h1 :: s, t ++ [z], ?_, ?_, ?_, ?_, ?_, ?_, ?_⟩
          · rw [hl, hy']
            simp
          · intro he
            rw [he] at hne
            simp at hne
          · simp
          · simp
          · exact fun ch hch => List.all_eq_true.mp hall ch hch
          · intro ch hch
            apply List.all_eq_true.mp hafter ch
            rcases List.mem_cons.mp hch with rfl | hmem
            · exact List.mem_cons_self _ _
            · exact List.mem_cons_of_mem _
                (List.mem_append_left _ (List.mem_append_left _ hmem))
          · intro ch hch
            apply List.all_eq_true.mp hafter ch
            apply List.mem_cons_of_mem
            rcases List.mem_append.mp hch with hmem | hmem
            · exact List.mem_append_left _
                (List.mem_append_right _ (List.mem_cons_of_mem _ hmem))
            · exact List.mem_append_right _ hmem
  · rintro ⟨a, b, c, hl, hane, hbne, hcne, hthA, hthB, hthC⟩
    have haU : ∀ x ∈ a, (x != '@') = true := fun x hx => atomChar_bne x (hthA x hx)
    have hsplit := takeWhile_append_all a '@' (b ++ '.' :: c) haU (by decide)
    unfold emailRegexTest
    rw [hl, hsplit.2, hsplit.1]
    simp only [Bool.and_eq_true, Bool.not_eq_true']
    refine ⟨⟨⟨?_, ?_⟩, ?_⟩, ?_⟩
    · cases a with
      | nil => exact absurd rfl hane
      | cons _ _ => rfl
    · exact List.all_eq_true.mpr hthA
    · apply List.all_eq_true.mpr
      intro x hx
      rcases List.mem_append.mp hx with hmem | hmem
      · exact hthB x hmem
      · rcases List.mem_cons.mp hmem with rfl | hmem2
        · decide
        · exact hthC x hmem2
    · cases b with
      | nil => exact absurd rfl hbne
      | cons hb b' =>
        rcases List.eq_nil_or_concat' c with rfl | ⟨c', z, rfl⟩
        · exact absurd rfl hcne
        · show (((hb :: (b' ++ '.' :: (c' ++ [z]))).drop 1).dropLast.contains '.') = true
          rw [List.drop_succ_cons, List.drop_zero,
            show b' ++ '.' :: (c' ++ [z]) = (b' ++ '.' :: c') ++ [z] by simp,
            List.dropLast_concat]
          simp

/-- Claim C10: a newsletter submission succeeds (success toast and
`form.reset()`) exactly when the e-mail field is non-empty and matches the
regular expression `^[^\s@]+@[^\s@]+\.[^\s@]+$`; an empty field produces the
empty-field error without reset, and a non-matching field the invalid-email
error without reset. -/
theorem c10_newsletter (email : String) :
    ((handleNewsletterSubmission email).isSuccess = true ↔
      email ≠ "" ∧ emailMatches email.data) ∧
    (handleNewsletterSubmission email).formReset =
      (handleNewsletterSubmission email).isSuccess ∧
    (email = "" → handleNewsletterSubmission email =
      { message := "Please enter an email address.", isSuccess := false,
        formReset := false }) ∧
    (email ≠ "" → isValidEmail email = false → handleNewsletterSubmission email =
      { message := "Please enter a valid email address.", isSuccess := false,
        formReset := false }) ∧
    (isValidEmail email = true ↔ emailMatches email.data) := by
  have hiff : isValidEmail email = true ↔ emailMatches email.data :=
    emailRegexTest_iff email.data
  unfold handleNewsletterSubmission
  split_ifs with h1 h2
  · refine ⟨?_, rfl, fun _ => rfl, fun hne _ => absurd h1 hne, hiff⟩
    constructor
    · intro hfalse
      simp at hfalse
    · rintro ⟨hne, _⟩
      exact absurd h1 hne
  · have hv : isValidEmail email = false := by simpa using h2
    refine ⟨?_, rfl, fun he => absurd he h1, fun _ _ => rfl, hiff⟩
    constructor
    · intro hfalse
      simp at hfalse
    · rintro ⟨hne, hm⟩
      rw [hiff.mpr hm] at hv
      exact absurd hv (by decide)
  · have hv : isValidEmail email = true := by simpa using h2
    refine ⟨⟨fun _ => ⟨h1, hiff.mp hv⟩, fun _ => rfl⟩, rfl, fun he => absurd he h1,
      fun _ hfalse => ?_, hiff⟩
    rw [hv] at hfalse
    exact absurd hfalse (by decide)

/-- Witness for C10: `"a@b.c"` succeeds, the empty field and `"bad"` produce
the two error outcomes without a reset. -/
theorem c10_newsletter_witness :
    (handleNewsletterSubmission "a@b.c").isSuccess = true ∧
    handleNewsletterSubmission "" =
      { message := "Please enter an email address.", isSuccess := false,
        formReset := false } ∧
    handleNewsletterSubmission "bad" =
      { message := "Please enter a valid email address.", isSuccess := false,
        formReset := false } := by
  refine ⟨?_, (c10_newsletter "").2.2.1 rfl,
    (c10_newsletter "bad").2.2.2.1 (by decide) (by decide)⟩
  exact (c10_newsletter "a@b.c").1.mpr ⟨by decide,
    ⟨['a'], ['b'], ['c'], rfl, by decide, by decide, by decide, by decide, by decide,
      by decide⟩⟩
